import Mathlib

/-!
Shallow embedding of the sports-talent-assessment platform, covering the
client-side gesture-rule checker (GestureRecorder.js), the Video model
(likes, geospatial findNearby), the GestureAnalysis model (successRate,
calculateScores), the auth middleware, the multer error handler, and the
storage-provider fallback in the assessments router.
-/

namespace STA

/-! ## GestureRecorder: violation handling (GestureRecorder.js) -/

/-- State of the gesture recorder relevant to violation handling:
the current violation count and whether recording is active. -/
structure RecorderState where
  violations : Nat
  isRecording : Bool
deriving Repr, DecidableEq

/-- Embeds `handleViolation` from GestureRecorder.js: it computes
`newViolations = violations + 1`, stores it, and calls
`stopRecording(true)` when `newViolations >= 3`.  The returned `Bool`
records whether `stopRecording` was invoked during this call. -/
def handleViolation (s : RecorderState) : RecorderState × Bool :=
  let newViolations := s.violations + 1
  if newViolations ≥ 3 then
    ({ violations := newViolations, isRecording := false }, true)
  else
    ({ violations := newViolations, isRecording := s.isRecording }, false)

/-! ## GestureRecorder: sport rule checks -/

/-- A MediaPipe pose landmark as used by the rule checks (only `x` and `y`
are read by the code). -/
structure Landmark where
  x : ℝ
  y : ℝ

/-- The landmark list is accessed by fixed indices (11, 12, 23, 24, ...);
we model it as a total function from indices to landmarks. -/
abbrev Landmarks := Nat → Landmark

/-- Embeds `checkApproachAngle` (long jump placeholder): always `false`. -/
def checkApproachAngle (_landmarks : Landmarks) : Bool := false

/-- Embeds `checkTakeoffPosition` (long jump placeholder): always `false`. -/
def checkTakeoffPosition (_landmarks : Landmarks) : Bool := false

/-- Embeds `checkBallControl` (football placeholder): always `false`. -/
def checkBallControl (_landmarks : Landmarks) : Bool := false

/-- Embeds `checkBodyPosition` (football placeholder): always `false`. -/
def checkBodyPosition (_landmarks : Landmarks) : Bool := false

/-- Embeds `checkShootingForm` (basketball placeholder): always `false`. -/
def checkShootingForm (_landmarks : Landmarks) : Bool := false

/-- Embeds `checkDribblingPosture` (basketball placeholder): always `false`. -/
def checkDribblingPosture (_landmarks : Landmarks) : Bool := false

/-! ## cloudinary.js: handleMulterError -/

/-- The response produced by `handleMulterError`: an HTTP status code and
the `success` flag of the JSON body. -/
structure MulterResponse where
  status : Nat
  success : Bool
deriving Repr, DecidableEq

/-- Embeds `handleMulterError` from utils/cloudinary.js, keyed on
`err.code`: `LIMIT_FILE_SIZE` ↦ 413, `LIMIT_FILE_TYPE` ↦ 400,
`LIMIT_UNEXPECTED_FILE` ↦ 400, anything else ↦ 500; the JSON body always
carries `success: false`. -/
def handleMulterError (errCode : String) : MulterResponse :=
  if errCode = "LIMIT_FILE_SIZE" then
    { status := 413, success := false }
  else if errCode = "LIMIT_FILE_TYPE" then
    { status := 400, success := false }
  else if errCode = "LIMIT_UNEXPECTED_FILE" then
    { status := 400, success := false }
  else
    { status := 500, success := false }

/-! ## Video model: likes (models/Video.js) -/

/-- The `likes` array of a video stores `{ user: userId }` entries; the
methods only ever read `like.user.toString()`, so we model the array as
the list of user-id strings. -/
abbrev Likes := List String

/-- Embeds `videoSchema.methods.isLikedBy`:
`likes.some(like => like.user.toString() === userId.toString())`. -/
def isLikedBy (likes : Likes) (userId : String) : Bool :=
  likes.any (fun u => u = userId)

/-- Embeds `videoSchema.methods.addLike`:
`if (!this.isLikedBy(userId)) this.likes.push({ user: userId })`. -/
def addLike (likes : Likes) (userId : String) : Likes :=
  if isLikedBy likes userId then likes else likes ++ [userId]

/-- Embeds `videoSchema.methods.removeLike`:
`this.likes = this.likes.filter(like => like.user.toString() !== userId.toString())`. -/
def removeLike (likes : Likes) (userId : String) : Likes :=
  likes.filter (fun u => ¬ u = userId)

/-- Embeds the `likeCount` virtual: `this.likes ? this.likes.length : 0`. -/
def likeCount (likes : Likes) : Nat := likes.length

/-! ## GestureAnalysis model: successRate virtual (models/GestureAnalysis.js) -/

/-- A recorded violation; the `successRate` virtual only reads the length
of the array, `calculateScores` additionally reads `attemptNumber`. -/
structure GViolation where
  attemptNumber : Nat
deriving Repr, DecidableEq

/-- Embeds the `successRate` virtual:
`if totalAttempts === 0 return 0;
 successfulAttempts = totalAttempts - Math.min(violations.length, 3);
 return (successfulAttempts / totalAttempts) * 100`.
JS numbers are modelled as rationals; the subtraction may go negative. -/
def successRate (totalAttempts : Nat) (violations : List GViolation) : ℚ :=
  if totalAttempts = 0 then 0
  else ((totalAttempts : ℚ) - min violations.length 3) / totalAttempts * 100

/-! ## Video model: findNearby (models/Video.js) -/

/-- A value stored in a MongoDB query object built by `findNearby`:
either a plain string (e.g. `status: 'approved'`), or a `$near`
geospatial clause with point coordinates `[longitude, latitude]` and a
`$maxDistance` in metres. -/
inductive QueryValue where
  | vstr : String → QueryValue
  | vnear (longitude latitude maxDistance : ℚ) : QueryValue
deriving Repr, DecidableEq

/-- A JS object is modelled by its key/value pairs. -/
abbrev QueryObj := List (String × QueryValue)

/-- Lookup of a key in an object, honouring JS object-literal semantics:
when a key occurs more than once, the last occurrence wins. -/
def objLookup (obj : QueryObj) (key : String) : Option QueryValue :=
  (obj.reverse.find? (fun p => p.1 = key)).map Prod.snd

/-- Embeds the query object built by `videoSchema.statics.findNearby`:
`{ location: { $near: { $geometry: Point [longitude, latitude],
$maxDistance: radiusInKm * 1000 } }, status: 'approved', ...filters }`.
The spread `...filters` places the caller's filter entries after the
base keys, so later entries win on a key collision. -/
def findNearbyQuery (longitude latitude radiusInKm : ℚ)
    (filters : QueryObj) : QueryObj :=
  [("location", QueryValue.vnear longitude latitude (radiusInKm * 1000)),
   ("status", QueryValue.vstr "approved")] ++ filters

/-- The index declarations on `videoSchema`, as (field, index-type) pairs;
`videoSchema.index({ location: '2dsphere' })` is the geospatial index
that backs the `$near` queries. -/
def videoSchemaIndexes : List (String × String) :=
  [("location", "2dsphere"),
   ("uploadedBy,createdAt", "compound"),
   ("sport,category,createdAt", "compound"),
   ("visibility,status,createdAt", "compound"),
   ("location.city,location.state", "compound")]

/-! ## assessments.js: storage-provider fallback -/

/-- The two video-storage providers the assessments router can end up
using. -/
inductive StorageProvider where
  | cloudinary
  | localDisk
deriving Repr, DecidableEq

/-- Embeds the module-load-time `try { require('../utils/cloudinary') }
catch { require('../utils/localStorage') }` in routes/assessments.js:
if loading the Cloudinary utilities throws, the local-disk utilities are
used instead.  The outcome of the `require` is the argument. -/
def selectVideoUtils (cloudinaryLoad : Except String StorageProvider) :
    StorageProvider :=
  match cloudinaryLoad with
  | Except.ok utils => utils
  | Except.error _ => StorageProvider.localDisk

/-- The router module state: the provider chosen once when the module was
loaded. -/
structure AssessmentsRouter where
  videoUtils : StorageProvider
deriving Repr, DecidableEq

/-- Loading the assessments router module fixes `videoUtils` from the
single `require` attempt. -/
def loadAssessmentsRouter (cloudinaryLoad : Except String StorageProvider) :
    AssessmentsRouter :=
  { videoUtils := selectVideoUtils cloudinaryLoad }

/-- Each upload request is served by `uploadVideo.single('video')` taken
from the module-level `videoUtils`; the provider used by a request is
therefore the router's stored provider. -/
def providerForUpload (router : AssessmentsRouter) (_requestId : Nat) :
    StorageProvider :=
  router.videoUtils

/-! ## middleware/auth.js: the auth middleware -/

/-- The decoded JWT payload; the middleware reads `userId` and `role` and
treats a missing one (`!userId || !role`) as invalid. -/
structure JwtPayload where
  userId : Option String
  role : Option String
deriving Repr, DecidableEq

/-- Errors thrown by `jwt.verify`, as distinguished by the catch block:
`JsonWebTokenError` and `TokenExpiredError` are answered with 401, any
other throw with 500. -/
inductive JwtError where
  | jsonWebTokenError
  | tokenExpired
  | other
deriving Repr, DecidableEq

/-- An account document loaded from the Athlete/Coach/Official model; the
middleware only branches on `isActive`. -/
structure Account where
  accountId : String
  isActive : Bool
deriving Repr, DecidableEq

/-- The database as seen by the middleware: for each of the three role
models, a lookup from id to the account document (if any). -/
structure AccountDb where
  findAthlete : String → Option Account
  findCoach : String → Option Account
  findOfficial : String → Option Account

/-- The observable outcome of the middleware: a JSON error response with
a status code, or a call to `next()` with the loaded account attached to
`req.user`. -/
inductive AuthResult where
  | respond (status : Nat) : AuthResult
  | callNext (user : Account) : AuthResult
deriving Repr, DecidableEq

/-- Embeds the account-loading dispatch in middleware/auth.js: `role`
selects the Athlete, Coach or Official model; any other role leaves
`user` null. -/
def findByRole (db : AccountDb) (role userId : String) : Option Account :=
  if role = "athlete" then db.findAthlete userId
  else if role = "coach" then db.findCoach userId
  else if role = "sai_official" then db.findOfficial userId
  else none

/-- Embeds the `auth` middleware of middleware/auth.js.  `authHeader` is
the `Authorization` header (if present), modelled as its character list;
`authHeader.startsWith('Bearer ')` is `header.take 7 = "Bearer ".toList`
(the prefix has exactly 7 characters) and `authHeader.substring(7)` is
`header.drop 7`.  `verify` is `jwt.verify` on the extracted token,
returning the decoded payload or the kind of error thrown. -/
def auth (authHeader : Option (List Char))
    (verify : List Char → Except JwtError JwtPayload)
    (db : AccountDb) : AuthResult :=
  match authHeader with
  | none => AuthResult.respond 401
  | some header =>
    if ¬ header.take 7 = "Bearer ".toList then AuthResult.respond 401
    else
      match verify (header.drop 7) with
      | Except.error JwtError.jsonWebTokenError => AuthResult.respond 401
      | Except.error JwtError.tokenExpired => AuthResult.respond 401
      | Except.error JwtError.other => AuthResult.respond 500
      | Except.ok decoded =>
        match decoded.userId, decoded.role with
        | none, _ => AuthResult.respond 401
        | _, none => AuthResult.respond 401
        | some userId, some role =>
          match findByRole db role userId with
          | none => AuthResult.respond 401
          | some user =>
            if ¬ user.isActive then AuthResult.respond 401
            else AuthResult.callNext user

/-! ## GestureAnalysis model: calculateScores -/

/-- The three numeric fields of `analysisResults` written by
`calculateScores` (each declared in the schema with `min: 0, max: 100`). -/
structure AnalysisScores where
  formAccuracy : ℚ
  consistencyScore : ℚ
  overallScore : ℚ
deriving Repr, DecidableEq

/-- Embeds the `violationsByAttempt` grouping of `calculateScores`:
`Object.values` of the per-attempt violation counts, i.e. for each
attempt number that occurs among the violations, how many violations it
has. -/
def attemptScores (violations : List GViolation) : List ℚ :=
  ((violations.map (fun v => v.attemptNumber)).dedup).map
    (fun a => (violations.countP (fun v => v.attemptNumber == a) : ℚ))

/-- Embeds `gestureAnalysisSchema.methods.calculateScores`:
`formAccuracy = Math.max(0, 100 - (totalViolations / maxViolations) * 100)`
with `maxViolations = totalAttempts * 3`;
`consistencyScore = Math.max(0, 100 - variance * 20)` where `variance` is
the population variance of the per-attempt violation counts around
`avg = sum / totalAttempts`; and
`overallScore = formAccuracy * 0.7 + consistencyScore * 0.3`. -/
def calculateScores (totalAttempts : Nat) (violations : List GViolation) :
    AnalysisScores :=
  let totalViolations : ℚ := violations.length
  let maxViolations : ℚ := (totalAttempts : ℚ) * 3
  let formAccuracy := max 0 (100 - totalViolations / maxViolations * 100)
  let scores := attemptScores violations
  let avgViolationsPerAttempt := scores.sum / (totalAttempts : ℚ)
  let variance :=
    (scores.map (fun s => (s - avgViolationsPerAttempt) ^ 2)).sum /
      (totalAttempts : ℚ)
  let consistencyScore := max 0 (100 - variance * 20)
  { formAccuracy := formAccuracy,
    consistencyScore := consistencyScore,
    overallScore := formAccuracy * (7 / 10) + consistencyScore * (3 / 10) }

/-! ## GestureRecorder: checkSprintStance -/

/-- `Math.atan2 y x` of JavaScript, idealised over the reals: the angle
of the vector `(x, y)` in `(-π, π]`. -/
noncomputable def atan2 (y x : ℝ) : ℝ :=
  if 0 < x then Real.arctan (y / x)
  else if x < 0 then
    (if 0 ≤ y then Real.arctan (y / x) + Real.pi
     else Real.arctan (y / x) - Real.pi)
  else
    (if 0 < y then Real.pi / 2
     else if y < 0 then -(Real.pi / 2)
     else 0)

/-- The torso angle computed by `checkSprintStance` in GestureRecorder.js:
`atan2(shoulderMidpoint.y - hipMidpoint.y, shoulderMidpoint.x -
hipMidpoint.x) * 180 / Math.PI`, with the midpoints of landmarks 11/12
(shoulders) and 23/24 (hips). -/
noncomputable def torsoAngle (lm : Landmarks) : ℝ :=
  let leftShoulder := lm 11
  let rightShoulder := lm 12
  let leftHip := lm 23
  let rightHip := lm 24
  let shoulderMidX := (leftShoulder.x + rightShoulder.x) / 2
  let shoulderMidY := (leftShoulder.y + rightShoulder.y) / 2
  let hipMidX := (leftHip.x + rightHip.x) / 2
  let hipMidY := (leftHip.y + rightHip.y) / 2
  atan2 (shoulderMidY - hipMidY) (shoulderMidX - hipMidX) * 180 / Real.pi

/-- Embeds `checkSprintStance`:
`return torsoAngle > 10 || torsoAngle < -30`. -/
def checkSprintStance (lm : Landmarks) : Prop :=
  torsoAngle lm > 10 ∨ torsoAngle lm < -30

/-- A fully upright pose: shoulder midpoint directly above the hip
midpoint in image coordinates (same x, smaller y). -/
noncomputable def uprightLandmarks : Landmarks := fun i =>
  if i = 11 ∨ i = 12 then { x := 1 / 2, y := 3 / 10 }
  else { x := 1 / 2, y := 3 / 5 }

/-- A pose whose shoulder midpoint is level with the hip midpoint and
displaced along positive x: torso angle 0. -/
noncomputable def levelLandmarks : Landmarks := fun i =>
  if i = 11 ∨ i = 12 then { x := 4 / 5, y := 1 / 2 }
  else { x := 1 / 2, y := 1 / 2 }

/-! ## Theorems -/

/-- C1: every call to `handleViolation` increments the violation count by
exactly one, and `stopRecording` is invoked exactly when the newly
computed count is 3 or more (so recording stops as soon as the count
reaches 3). -/
theorem handleViolation_increments_and_stops_at_three (s : RecorderState) :
    (handleViolation s).1.violations = s.violations + 1 ∧
    ((handleViolation s).2 = true ↔ 3 ≤ s.violations + 1) ∧
    (3 ≤ s.violations + 1 → (handleViolation s).1.isRecording = false) := by
  unfold handleViolation
  by_cases h : 3 ≤ s.violations + 1 <;> simp [h]

/-- C1 witness: at a state with 2 prior violations, the new count is 3,
`stopRecording` is invoked and recording ends. -/
theorem handleViolation_witness :
    (handleViolation { violations := 2, isRecording := true }).1.violations = 3 ∧
    (handleViolation { violations := 2, isRecording := true }).2 = true ∧
    (handleViolation { violations := 2, isRecording := true }).1.isRecording
      = false := by
  refine ⟨?_, ?_, ?_⟩
  · exact (handleViolation_increments_and_stops_at_three
      { violations := 2, isRecording := true }).1
  · exact (handleViolation_increments_and_stops_at_three
      { violations := 2, isRecording := true }).2.1.mpr (by decide)
  · exact (handleViolation_increments_and_stops_at_three
      { violations := 2, isRecording := true }).2.2 (by decide)

/-- C2: the rule checks for long jump, football and basketball are
placeholders: on every landmarks input each of them returns `false`,
so these checks never report a violation. -/
theorem placeholder_checks_never_violate (lm : Landmarks) :
    checkApproachAngle lm = false ∧ checkTakeoffPosition lm = false ∧
    checkBallControl lm = false ∧ checkBodyPosition lm = false ∧
    checkShootingForm lm = false ∧ checkDribblingPosture lm = false :=
  ⟨rfl, rfl, rfl, rfl, rfl, rfl⟩

/-- C6: `handleMulterError` responds 413 exactly for `LIMIT_FILE_SIZE`,
400 exactly for `LIMIT_FILE_TYPE` or `LIMIT_UNEXPECTED_FILE`, 500 for
every other error code, and the body always has `success: false`. -/
theorem handleMulterError_status_map (errCode : String) :
    ((handleMulterError errCode).status = 413 ↔ errCode = "LIMIT_FILE_SIZE") ∧
    ((handleMulterError errCode).status = 400 ↔
      errCode = "LIMIT_FILE_TYPE" ∨ errCode = "LIMIT_UNEXPECTED_FILE") ∧
    (errCode ≠ "LIMIT_FILE_SIZE" → errCode ≠ "LIMIT_FILE_TYPE" →
      errCode ≠ "LIMIT_UNEXPECTED_FILE" →
      (handleMulterError errCode).status = 500) ∧
    (handleMulterError errCode).success = false := by
  unfold handleMulterError
  by_cases h1 : errCode = "LIMIT_FILE_SIZE" <;>
    by_cases h2 : errCode = "LIMIT_FILE_TYPE" <;>
      by_cases h3 : errCode = "LIMIT_UNEXPECTED_FILE" <;>
        simp_all

/-- C6 witness: a generic disk error is mapped to status 500 with
`success: false`. -/
theorem handleMulterError_witness :
    (handleMulterError "ENOENT").status = 500 ∧
    (handleMulterError "ENOENT").success = false :=
  ⟨(handleMulterError_status_map "ENOENT").2.2.1
      (by decide) (by decide) (by decide),
   (handleMulterError_status_map "ENOENT").2.2.2⟩

/-- After `addLike likes u`, the user `u` is among the likes. -/
lemma isLikedBy_addLike (likes : Likes) (u : String) :
    isLikedBy (addLike likes u) u = true := by
  by_cases h : isLikedBy likes u = true
  · simp [addLike, h]
  · simp only [isLikedBy, List.any_eq_true, decide_eq_true_eq] at h
    push_neg at h
    have hu : u ∉ likes := fun hm => h u hm rfl
    simp [addLike, isLikedBy, hu]

/-- After `removeLike l u`, the user `u` is no longer among the likes. -/
lemma isLikedBy_removeLike (l : Likes) (u : String) :
    isLikedBy (removeLike l u) u = false := by
  simp [isLikedBy, removeLike]

/-- C9: `addLike` is idempotent, leaves the video liked by the user,
increases `likeCount` by at most one, and a subsequent `removeLike`
leaves `isLikedBy` false. -/
theorem addLike_idempotent (likes : Likes) (u : String) :
    addLike (addLike likes u) u = addLike likes u ∧
    isLikedBy (addLike likes u) u = true ∧
    likeCount (addLike likes u) ≤ likeCount likes + 1 ∧
    isLikedBy (removeLike (addLike likes u) u) u = false := by
  refine ⟨?_, isLikedBy_addLike likes u, ?_, isLikedBy_removeLike _ u⟩
  · rw [addLike, isLikedBy_addLike likes u]
    simp
  · by_cases h : isLikedBy likes u = true <;>
      simp [addLike, likeCount, h]

/-- C10: the `successRate` virtual equals
`((totalAttempts - min(violations.length, 3)) / totalAttempts) * 100`
(and 0 when `totalAttempts` is 0), and it is not clamped below zero:
with `totalAttempts = 1` and 3 recorded violations it is -200. -/
theorem successRate_formula_and_unclamped :
    (∀ (n : Nat) (vs : List GViolation),
      successRate n vs =
        if n = 0 then 0
        else ((n : ℚ) - min ((vs.length : ℚ)) 3) / (n : ℚ) * 100) ∧
    successRate 1 [⟨1⟩, ⟨1⟩, ⟨1⟩] = -200 ∧
    successRate 1 [⟨1⟩, ⟨1⟩, ⟨1⟩] < 0 := by
  refine ⟨?_, ?_, ?_⟩
  · intro n vs
    unfold successRate
    by_cases h : n = 0 <;> simp [h]
  · norm_num [successRate]
  · norm_num [successRate]

/-- Looking a key up in a concatenation: the right-hand object (the later
keys, which win in JS) is consulted first. -/
lemma objLookup_append (a b : QueryObj) (k : String) :
    objLookup (a ++ b) k = (objLookup b k).or (objLookup a k) := by
  unfold objLookup
  rw [List.reverse_append, List.find?_append]
  cases hb : List.find? (fun p => decide (p.1 = k)) b.reverse <;>
    simp [hb, Option.or]

/-- A key absent from an object's key list looks up to `none`. -/
lemma objLookup_eq_none (l : QueryObj) (k : String)
    (h : k ∉ l.map Prod.fst) : objLookup l k = none := by
  unfold objLookup
  rw [List.find?_eq_none.mpr]
  · rfl
  · intro p hp
    simp only [decide_eq_true_eq]
    intro hk
    exact h (List.mem_map.mpr ⟨p, List.mem_reverse.mp hp, hk⟩)

/-- C3: the query built by `findNearby` carries a `$near` clause on
`location` with point `[longitude, latitude]` and `$maxDistance` equal
to `radiusInKm * 1000` metres, restricts to `status: 'approved'`, keeps
every extra caller filter, and the schema declares the 2dsphere index on
`location` that backs `$near`. -/
theorem findNearby_geo_query (lng lat r : ℚ) (filters : QueryObj)
    (hloc : "location" ∉ filters.map Prod.fst)
    (hstat : "status" ∉ filters.map Prod.fst) :
    objLookup (findNearbyQuery lng lat r filters) "location"
      = some (QueryValue.vnear lng lat (r * 1000)) ∧
    objLookup (findNearbyQuery lng lat r filters) "status"
      = some (QueryValue.vstr "approved") ∧
    (∀ k, k ≠ "location" → k ≠ "status" →
      objLookup (findNearbyQuery lng lat r filters) k = objLookup filters k) ∧
    ("location", "2dsphere") ∈ videoSchemaIndexes := by
  refine ⟨?_, ?_, ?_, by simp [videoSchemaIndexes]⟩
  · rw [findNearbyQuery, objLookup_append, objLookup_eq_none filters _ hloc]
    simp [objLookup, Option.or]
  · rw [findNearbyQuery, objLookup_append, objLookup_eq_none filters _ hstat]
    simp [objLookup, Option.or]
  · intro k hkl hks
    rw [findNearbyQuery, objLookup_append]
    have hbase : objLookup
        [("location", QueryValue.vnear lng lat (r * 1000)),
         ("status", QueryValue.vstr "approved")] k = none := by
      apply objLookup_eq_none
      simp [hkl, hks, Ne.symm]
    rw [hbase]
    cases hf : objLookup filters k <;> simp [Option.or, hf]

/-- C3 witness: a nearby query at (77, 13) with a 5 km radius and an
extra `sport` filter. -/
theorem findNearby_geo_query_witness :
    objLookup (findNearbyQuery 77 13 5 [("sport", QueryValue.vstr "basketball")])
        "location" = some (QueryValue.vnear 77 13 5000) ∧
    objLookup (findNearbyQuery 77 13 5 [("sport", QueryValue.vstr "basketball")])
        "status" = some (QueryValue.vstr "approved") ∧
    objLookup (findNearbyQuery 77 13 5 [("sport", QueryValue.vstr "basketball")])
        "sport" = some (QueryValue.vstr "basketball") := by
  have h := findNearby_geo_query 77 13 5 [("sport", QueryValue.vstr "basketball")]
    (by simp) (by simp)
  refine ⟨?_, h.2.1, ?_⟩
  · have := h.1
    norm_num at this ⊢
    exact this
  · rw [h.2.2.1 "sport" (by simp) (by simp)]
    simp [objLookup]

/-- C4: the Cloudinary-to-local-disk fallback is a single choice made at
module load: a failing Cloudinary require yields the local-disk
provider, a successful one yields the Cloudinary utilities, and every
upload request served by the loaded router uses exactly the provider
chosen at load time. -/
theorem storage_fallback_chosen_once
    (cloudinaryLoad : Except String StorageProvider) (requestId : Nat) :
    (∀ e, selectVideoUtils (Except.error e) = StorageProvider.localDisk) ∧
    (∀ u, selectVideoUtils (Except.ok u) = u) ∧
    providerForUpload (loadAssessmentsRouter cloudinaryLoad) requestId
      = selectVideoUtils cloudinaryLoad :=
  ⟨fun _ => rfl, fun _ => rfl, rfl⟩

/-- C5: the auth middleware responds 401 (and does not call `next`) when
the Authorization header is absent or lacks the `Bearer ` prefix, when
the JWT fails verification or has expired, when the payload lacks
`userId` or `role`, when no account of the claimed role matches, or when
the account is deactivated; it calls `next` exactly when an active
account of the claimed role is loaded. -/
theorem auth_rejects_or_calls_next (authHeader : Option (List Char))
    (verify : List Char → Except JwtError JwtPayload) (db : AccountDb) :
    (authHeader = none → auth authHeader verify db = AuthResult.respond 401) ∧
    (∀ h, authHeader = some h → ¬ h.take 7 = "Bearer ".toList →
      auth authHeader verify db = AuthResult.respond 401) ∧
    (∀ h, authHeader = some h → h.take 7 = "Bearer ".toList →
      (verify (h.drop 7) = Except.error JwtError.jsonWebTokenError ∨
        verify (h.drop 7) = Except.error JwtError.tokenExpired) →
      auth authHeader verify db = AuthResult.respond 401) ∧
    (∀ h p, authHeader = some h → h.take 7 = "Bearer ".toList →
      verify (h.drop 7) = Except.ok p →
      (p.userId = none ∨ p.role = none) →
      auth authHeader verify db = AuthResult.respond 401) ∧
    (∀ h uid role, authHeader = some h → h.take 7 = "Bearer ".toList →
      verify (h.drop 7) = Except.ok { userId := some uid, role := some role } →
      findByRole db role uid = none →
      auth authHeader verify db = AuthResult.respond 401) ∧
    (∀ h uid role u, authHeader = some h → h.take 7 = "Bearer ".toList →
      verify (h.drop 7) = Except.ok { userId := some uid, role := some role } →
      findByRole db role uid = some u → u.isActive = false →
      auth authHeader verify db = AuthResult.respond 401) ∧
    (∀ u, auth authHeader verify db = AuthResult.callNext u ↔
      ∃ h uid role, authHeader = some h ∧ h.take 7 = "Bearer ".toList ∧
        verify (h.drop 7) = Except.ok { userId := some uid, role := some role } ∧
        findByRole db role uid = some u ∧ u.isActive = true) := by
  refine ⟨?_, ?_, ?_, ?_, ?_, ?_, ?_⟩
  · rintro rfl; rfl
  · rintro h rfl hb
    simp only [auth]
    rw [if_pos hb]
  · rintro h rfl hb (hv | hv) <;> simp [auth, hb, hv]
  · rintro h ⟨pu, pr⟩ rfl hb hv hnone
    rcases hnone with hn | hn <;> simp only at hn <;> subst hn
    · cases pr <;> simp [auth, hb, hv]
    · cases pu <;> simp [auth, hb, hv]
  · rintro h uid role rfl hb hv hf
    simp [auth, hb, hv, hf]
  · rintro h uid role u rfl hb hv hf ha
    simp [auth, hb, hv, hf, ha]
  · intro u
    constructor
    · intro hnext
      rcases authHeader with _ | h
      · exact absurd hnext (by simp [auth])
      · by_cases hb : h.take 7 = "Bearer ".toList
        · rcases hv : verify (h.drop 7) with e | ⟨pu, pr⟩
          · cases e <;> simp [auth, hb, hv] at hnext
          · cases pu with
            | none => simp [auth, hb, hv] at hnext
            | some uid =>
              cases pr with
              | none => simp [auth, hb, hv] at hnext
              | some role =>
                rcases hf : findByRole db role uid with _ | u'
                · simp [auth, hb, hv, hf] at hnext
                · by_cases ha : u'.isActive = true
                  · have : u' = u := by
                      simpa [auth, hb, hv, hf, ha] using hnext
                    exact ⟨h, uid, role, rfl, hb, hv, this ▸ hf, this ▸ ha⟩
                  · simp [auth, hb, hv, hf, ha] at hnext
        · have h401 : auth (some h) verify db = AuthResult.respond 401 := by
            simp only [auth]
            rw [if_pos hb]
          rw [h401] at hnext
          exact absurd hnext (by simp)
    · rintro ⟨h, uid, role, rfl, hb, hv, hf, ha⟩
      simp [auth, hb, hv, hf, ha]

/-- C5 witness: a missing Authorization header is answered 401, and a
well-formed Bearer token for an active athlete account reaches `next`
with that account. -/
theorem auth_witness :
    auth none (fun _ => Except.error JwtError.other)
        { findAthlete := fun _ => none, findCoach := fun _ => none,
          findOfficial := fun _ => none } = AuthResult.respond 401 ∧
    auth (some "Bearer tok".toList)
        (fun _ => Except.ok { userId := some "u1", role := some "athlete" })
        { findAthlete := fun i =>
            if i = "u1" then some { accountId := "u1", isActive := true }
            else none,
          findCoach := fun _ => none, findOfficial := fun _ => none }
      = AuthResult.callNext { accountId := "u1", isActive := true } := by
  constructor
  · exact (auth_rejects_or_calls_next none
      (fun _ => Except.error JwtError.other)
      { findAthlete := fun _ => none, findCoach := fun _ => none,
        findOfficial := fun _ => none }).1 rfl
  · exact (auth_rejects_or_calls_next (some "Bearer tok".toList)
      (fun _ => Except.ok { userId := some "u1", role := some "athlete" })
      { findAthlete := fun i =>
          if i = "u1" then some { accountId := "u1", isActive := true }
          else none,
        findCoach := fun _ => none,
        findOfficial := fun _ => none }).2.2.2.2.2.2
      { accountId := "u1", isActive := true } |>.mpr
      ⟨"Bearer tok".toList, "u1", "athlete", rfl, by decide, rfl, by
        simp [findByRole], rfl⟩

/-- The torso angle of the fully upright pose is -90 degrees. -/
lemma torsoAngle_upright : torsoAngle uprightLandmarks = -90 := by
  have hmid : torsoAngle uprightLandmarks = atan2 (-(3/10)) 0 * 180 / Real.pi := by
    simp only [torsoAngle, uprightLandmarks]
    norm_num
  rw [hmid, atan2]
  rw [if_neg (by norm_num), if_neg (by norm_num), if_neg (by norm_num),
    if_pos (by norm_num)]
  have hpi := Real.pi_ne_zero
  field_simp
  ring

/-- The torso angle of the level pose is 0 degrees. -/
lemma torsoAngle_level : torsoAngle levelLandmarks = 0 := by
  have hmid : torsoAngle levelLandmarks = atan2 0 (3/10) * 180 / Real.pi := by
    simp only [torsoAngle, levelLandmarks]
    norm_num
  rw [hmid, atan2, if_pos (by norm_num)]
  norm_num

/-- C7: `checkSprintStance` reports a violation exactly when the torso
angle — `atan2` of the shoulder midpoint minus the hip midpoint
(landmarks 11, 12, 23, 24), converted to degrees — is strictly above 10
or strictly below -30; in particular a fully upright torso (angle -90)
violates and a level torso (angle 0) does not. -/
theorem checkSprintStance_threshold :
    (∀ lm : Landmarks, checkSprintStance lm ↔
      torsoAngle lm > 10 ∨ torsoAngle lm < -30) ∧
    checkSprintStance uprightLandmarks ∧
    ¬ checkSprintStance levelLandmarks := by
  refine ⟨fun lm => Iff.rfl, ?_, ?_⟩
  · unfold checkSprintStance
    rw [torsoAngle_upright]
    norm_num
  · unfold checkSprintStance
    rw [torsoAngle_level]
    norm_num

/-- C8: with at least one attempt, `calculateScores` produces
`formAccuracy`, `consistencyScore` and `overallScore` all within
[0, 100], with `overallScore = formAccuracy * 0.7 + consistencyScore *
0.3`, so the schema's min 0 / max 100 bounds hold for every completed
analysis. -/
theorem calculateScores_bounds (totalAttempts : Nat)
    (violations : List GViolation) (h : 1 ≤ totalAttempts) :
    0 ≤ (calculateScores totalAttempts violations).formAccuracy ∧
    (calculateScores totalAttempts violations).formAccuracy ≤ 100 ∧
    0 ≤ (calculateScores totalAttempts violations).consistencyScore ∧
    (calculateScores totalAttempts violations).consistencyScore ≤ 100 ∧
    0 ≤ (calculateScores totalAttempts violations).overallScore ∧
    (calculateScores totalAttempts violations).overallScore ≤ 100 ∧
    (calculateScores totalAttempts violations).overallScore =
      (calculateScores totalAttempts violations).formAccuracy * (7 / 10) +
      (calculateScores totalAttempts violations).consistencyScore * (3 / 10) := by
  have hn : (0:ℚ) < (totalAttempts : ℚ) := by
    exact_mod_cast Nat.lt_of_lt_of_le Nat.zero_lt_one h
  have hform1 : (0:ℚ) ≤
      max 0 (100 - (violations.length : ℚ) / ((totalAttempts : ℚ) * 3) * 100) :=
    le_max_left _ _
  have hform2 :
      max 0 (100 - (violations.length : ℚ) / ((totalAttempts : ℚ) * 3) * 100)
        ≤ 100 := by
    apply max_le (by norm_num)
    have hq : (0:ℚ) ≤ (violations.length : ℚ) / ((totalAttempts : ℚ) * 3) * 100 := by
      positivity
    linarith
  have hvar : (0:ℚ) ≤
      ((attemptScores violations).map
        (fun s => (s - (attemptScores violations).sum / (totalAttempts : ℚ)) ^ 2)).sum
        / (totalAttempts : ℚ) := by
    apply div_nonneg _ (le_of_lt hn)
    apply List.sum_nonneg
    intro x hx
    rw [List.mem_map] at hx
    obtain ⟨a, ha, hfa⟩ := hx
    subst hfa
    positivity
  have hcons1 : (0:ℚ) ≤
      max 0 (100 -
        ((attemptScores violations).map
          (fun s => (s - (attemptScores violations).sum / (totalAttempts : ℚ)) ^ 2)).sum
          / (totalAttempts : ℚ) * 20) :=
    le_max_left _ _
  have hcons2 :
      max 0 (100 -
        ((attemptScores violations).map
          (fun s => (s - (attemptScores violations).sum / (totalAttempts : ℚ)) ^ 2)).sum
          / (totalAttempts : ℚ) * 20) ≤ 100 := by
    apply max_le (by norm_num)
    linarith
  simp only [calculateScores]
  refine ⟨hform1, hform2, hcons1, hcons2, ?_, ?_, trivial⟩
  · linarith
  · linarith

/-- C8 witness: two attempts with violations on attempts 1, 1 and 2. -/
theorem calculateScores_bounds_witness :
    1 ≤ 2 ∧
    0 ≤ (calculateScores 2 [⟨1⟩, ⟨1⟩, ⟨2⟩]).overallScore ∧
    (calculateScores 2 [⟨1⟩, ⟨1⟩, ⟨2⟩]).overallScore ≤ 100 :=
  ⟨by decide,
   (calculateScores_bounds 2 [⟨1⟩, ⟨1⟩, ⟨2⟩] (by decide)).2.2.2.2.1,
   (calculateScores_bounds 2 [⟨1⟩, ⟨1⟩, ⟨2⟩] (by decide)).2.2.2.2.2.1⟩

end STA
